import Mathlib

/-!
Verification of the Bezpecna_Praha hazard-alert server.

This file gives a shallow embedding, in Lean 4, of the parts of the
repository that the specification talks about: the alert store
(`src/server/storage.ts`, plus the `src/unnamed/part_001` storage variant),
the request validation schema (`src/shared/schema.ts`), the Express route
handlers (`src/server/routes.ts`) and the authentication layer
(`src/server/auth.ts`).  Persistent tables become Lean lists, JavaScript
`Date` values become integer milliseconds, SQL / Mongo queries become list
filters and sorts, and the asynchronous handlers become pure state-passing
functions.  The `scrypt` primitive (an external library call) is a parameter
of every definition that uses it.

Theorems at the end of the file settle the frozen claims about the spec.
-/

set_option linter.unusedVariables false

/-- JavaScript `Date` values are modeled as integer milliseconds since the
epoch. -/
abbrev Timestamp := Int

/-- A row of the `users` table (src/shared/schema.ts): serial `id`, unique
`username`, `password` (the stored salted-hash string, see `hashPassword`),
`isAdmin` (defaults to `true`) and `createdAt` (default now).  The Mongo
storage variant names the identifier `_id`; it is modeled by the same `id`
field. -/
structure User where
  id : Nat
  username : String
  password : String
  isAdmin : Bool := true
  createdAt : Timestamp := 0
  deriving Repr, DecidableEq

/-- A row of the `alerts` table (src/shared/schema.ts, first document).
`xPosition`/`yPosition` are `decimal` percentage columns, modeled by their
numeric value as rationals.  `expiresAt` is a nullable timestamp (`none` =
never expires), `isActive` defaults to `true`, `createdAt` defaults to the
insertion time. -/
structure Alert where
  id : Nat
  title : String
  description : String
  alternativeRoute : Option String := none
  alternativeRoutes : Option String := none
  category : String
  severity : String
  xPosition : Rat
  yPosition : Rat
  createdBy : Nat
  createdAt : Timestamp
  expiresAt : Option Timestamp := none
  isActive : Bool := true
  deriving Repr, DecidableEq

/-- The persistent `alerts` table together with the serial-id counter that
the database uses to assign the next primary key. -/
structure AlertsDb where
  alerts : List Alert
  nextId : Nat := 1
  deriving Repr, DecidableEq

/-- The `Partial<Alert>` argument of `DatabaseStorage.updateAlert`
(src/server/storage.ts line 86): every column of the `alerts` table may be
present (`some`) or absent (`none`).  For nullable columns the present value
is itself an `Option`. -/
structure AlertUpdate where
  id : Option Nat := none
  title : Option String := none
  description : Option String := none
  alternativeRoute : Option (Option String) := none
  alternativeRoutes : Option (Option String) := none
  category : Option String := none
  severity : Option String := none
  xPosition : Option Rat := none
  yPosition : Option Rat := none
  createdBy : Option Nat := none
  createdAt : Option Timestamp := none
  expiresAt : Option (Option Timestamp) := none
  isActive : Option Bool := none
  deriving Repr, DecidableEq

/-- Drizzle's `.set(updates)` on one row: every column named in the update
object is overwritten with the supplied value, every other column keeps its
stored value. -/
def applyUpdates (u : AlertUpdate) (a : Alert) : Alert :=
  { id := u.id.getD a.id
    title := u.title.getD a.title
    description := u.description.getD a.description
    alternativeRoute := u.alternativeRoute.getD a.alternativeRoute
    alternativeRoutes := u.alternativeRoutes.getD a.alternativeRoutes
    category := u.category.getD a.category
    severity := u.severity.getD a.severity
    xPosition := u.xPosition.getD a.xPosition
    yPosition := u.yPosition.getD a.yPosition
    createdBy := u.createdBy.getD a.createdBy
    createdAt := u.createdAt.getD a.createdAt
    expiresAt := u.expiresAt.getD a.expiresAt
    isActive := u.isActive.getD a.isActive }

/-- The parsed output of `insertAlertSchema` (src/shared/schema.ts, first
document) plus the `createdBy` the route adds: the fields handed to
`DatabaseStorage.createAlert`.  `icon` and `expirationHours` are validated
by the schema but are not columns of this variant's `alerts` table, so the
insert ignores them. -/
structure InsertAlert where
  title : String
  description : String
  category : String
  severity : String
  xPosition : Rat
  yPosition : Rat
  icon : Option String := none
  expirationHours : Rat := 24
  alternativeRoute : Option String := none
  alternativeRoutes : Option String := none
  deriving Repr, DecidableEq

namespace ServerStorage

/-- The `or(isNull(alerts.expiresAt), gte(alerts.expiresAt, now))` clause of
`DatabaseStorage.getActiveAlerts` (src/server/storage.ts lines 72-75). -/
def expiryKeeps (now : Timestamp) (e : Option Timestamp) : Bool :=
  match e with
  | none => true
  | some t => now ≤ t

/-- `DatabaseStorage.getActiveAlerts` (src/server/storage.ts lines 64-79):
select the rows with `isActive = true` and (`expiresAt` null or
`expiresAt >= now`), ordered by `createdAt` descending. -/
def getActiveAlerts (db : AlertsDb) (now : Timestamp) : List Alert :=
  List.insertionSort (fun x y => y.createdAt ≤ x.createdAt)
    (db.alerts.filter (fun a => a.isActive && expiryKeeps now a.expiresAt))

/-- `DatabaseStorage.getAlert` (src/server/storage.ts lines 81-84). -/
def getAlert (id : Nat) (db : AlertsDb) : Option Alert :=
  (db.alerts.filter (fun a => a.id == id)).head?

/-- `DatabaseStorage.createAlert` (src/server/storage.ts lines 59-62): the
validated data is inserted as-is.  This variant computes no expiry: the
insert object carries no `expiresAt` key (the schema omits it), so the
nullable column stays null; `isActive` and `createdAt` take their column
defaults (`true` and now); the serial `id` is assigned by the database. -/
def createAlert (d : InsertAlert) (createdBy : Nat) (now : Timestamp)
    (db : AlertsDb) : Alert × AlertsDb :=
  let a : Alert :=
    { id := db.nextId
      title := d.title
      description := d.description
      alternativeRoute := d.alternativeRoute
      alternativeRoutes := d.alternativeRoutes
      category := d.category
      severity := d.severity
      xPosition := d.xPosition
      yPosition := d.yPosition
      createdBy := createdBy
      createdAt := now
      expiresAt := none
      isActive := true }
  (a, { alerts := db.alerts ++ [a], nextId := db.nextId + 1 })

/-- `DatabaseStorage.updateAlert` (src/server/storage.ts lines 86-93):
`update(alerts).set(updates).where(eq(alerts.id, id)).returning()`; the
result is `returning[0] || null`.  No validation, range check or field
allow-list is applied to `updates`. -/
def updateAlert (id : Nat) (u : AlertUpdate) (db : AlertsDb) :
    Option Alert × AlertsDb :=
  let returned := (db.alerts.filter (fun a => a.id == id)).map (applyUpdates u)
  let updated := db.alerts.map (fun a => if a.id = id then applyUpdates u a else a)
  (returned.head?, { db with alerts := updated })

/-- `DatabaseStorage.deleteAlert` (src/server/storage.ts lines 95-102):
`update(alerts).set({isActive: false}).where(eq(alerts.id, id)).returning()`
and the boolean result is `returning.length > 0`.  The `where` clause
matches on `id` only, active or not. -/
def deleteAlert (id : Nat) (db : AlertsDb) : Bool × AlertsDb :=
  let updated := db.alerts.map
    (fun a => if a.id = id then { a with isActive := false } else a)
  let returned := updated.filter (fun a => a.id == id)
  (decide (0 < returned.length), { db with alerts := updated })

/-- `DatabaseStorage.getAlertsByUser` (src/server/storage.ts lines 104-110):
all of one user's alerts, active or not, newest first. -/
def getAlertsByUser (userId : Nat) (db : AlertsDb) : List Alert :=
  List.insertionSort (fun x y => y.createdAt ≤ x.createdAt)
    (db.alerts.filter (fun a => a.createdBy == userId))

end ServerStorage

instance : IsTotal Alert (fun x y => y.createdAt ≤ x.createdAt) :=
  ⟨fun a b => Int.le_total b.createdAt a.createdAt⟩

instance : IsTrans Alert (fun x y => y.createdAt ≤ x.createdAt) :=
  ⟨fun _ _ _ hab hbc => le_trans hbc hab⟩

/-- The alert-creation data of the `src/unnamed/part_001` storage variant,
whose paired schema validates an `expirationMinutes` helper field
(`none` models an absent field). -/
structure InsertAlertP1 where
  title : String
  description : String
  category : String
  severity : String
  xPosition : Rat
  yPosition : Rat
  icon : Option String := none
  expirationMinutes : Option Int := none
  alternativeRoute : Option String := none
  alternativeRoutes : Option String := none
  deriving Repr, DecidableEq

namespace Part001

/-- `DatabaseStorage.createAlert` of src/unnamed/part_001 (lines 53-87):
destructures `expirationMinutes` off the insert data; when it is present,
truthy and positive it computes `expiresAt = now + expirationMinutes`
(via `Date.setMinutes`, i.e. plus `expirationMinutes * 60000` ms), otherwise
`expiresAt = null`.  `alternativeRoutes || null` maps a falsy value (absent
or empty string) to null.  `isActive`, `createdAt` and `id` take their
column defaults (`true`, now, serial).  The JS guard
`expirationMinutes && expirationMinutes > 0` is `0 < m` on a present
integer `m`, since `0` is falsy and also fails the comparison. -/
def createAlert (d : InsertAlertP1) (createdBy : Nat) (now : Timestamp)
    (db : AlertsDb) : Alert × AlertsDb :=
  let expiresAt : Option Timestamp :=
    match d.expirationMinutes with
    | none => none
    | some m => if 0 < m then some (now + m * 60000) else none
  let a : Alert :=
    { id := db.nextId
      title := d.title
      description := d.description
      alternativeRoute := d.alternativeRoute
      alternativeRoutes :=
        match d.alternativeRoutes with
        | none => none
        | some s => if s = "" then none else some s
      category := d.category
      severity := d.severity
      xPosition := d.xPosition
      yPosition := d.yPosition
      createdBy := createdBy
      createdAt := now
      expiresAt := expiresAt
      isActive := true }
  (a, { alerts := db.alerts ++ [a], nextId := db.nextId + 1 })

end Part001

/-- A POST /api/alerts request body as far as the effective
`insertAlertSchema` inspects it.  The position fields reach the server as
JSON numbers (the schema's live validator also accepts strings and coerces
them with `Number`); they are modeled by their numeric value. -/
structure AlertReqBody where
  title : String
  description : String
  category : String
  severity : String
  xPosition : Rat
  yPosition : Rat
  icon : Option String := none
  expirationHours : Option Rat := none
  alternativeRoute : Option String := none
  alternativeRoutes : Option String := none
  deriving Repr, DecidableEq

/-- `insertAlertSchema.parse` (src/shared/schema.ts, first document, lines
46-64).  The `.extend` object literal names `xPosition` and `yPosition`
twice: the earlier entries carry `z.number().min(0).max(100)`, but in a
JavaScript object literal the later duplicate keys win, and the later
entries are `z.union([z.string(), z.number()]).transform(Number)` with no
range refinement.  The effective schema therefore checks `title` and
`description` non-empty and the `category`/`severity` enums, but applies no
bound to the positions; `expirationHours` defaults to 24. -/
def insertAlertSchemaParse (b : AlertReqBody) : Option InsertAlert :=
  if 1 ≤ b.title.length ∧ 1 ≤ b.description.length
      ∧ (b.category = "road" ∨ b.category = "criminal")
      ∧ (b.severity = "low" ∨ b.severity = "medium" ∨ b.severity = "high"
          ∨ b.severity = "critical") then
    some
      { title := b.title
        description := b.description
        category := b.category
        severity := b.severity
        xPosition := b.xPosition
        yPosition := b.yPosition
        icon := b.icon
        expirationHours := b.expirationHours.getD 24
        alternativeRoute := b.alternativeRoute
        alternativeRoutes := b.alternativeRoutes }
  else none

/-- A serialized JSON value, as produced by `res.json`. -/
inductive Json where
  | null : Json
  | str : String → Json
  | num : Int → Json
  | bool : Bool → Json
  | arr : List Json → Json
  | obj : List (String × Json) → Json
  deriving Repr

/-- The key/value pairs of a JSON object (and `[]` on non-objects). -/
def Json.fields : Json → List (String × Json)
  | .obj l => l
  | _ => []

/-- `res.json(req.user)` serializes every column of the stored user row,
the `password` hash included. -/
def User.toJson (u : User) : Json :=
  .obj [("id", .num u.id), ("username", .str u.username),
        ("password", .str u.password), ("isAdmin", .bool u.isAdmin),
        ("createdAt", .num u.createdAt)]

/-- The response of an alert route handler: a JSON alert, a JSON list of
alerts, a JSON error body, or an empty body (204). -/
inductive AlertResponse where
  | alertJson (status : Nat) (a : Alert)
  | alertsJson (status : Nat) (l : List Alert)
  | errorJson (status : Nat) (message : String)
  | empty (status : Nat)
  deriving Repr, DecidableEq

namespace Routes

/-- The GET /api/alerts handler (src/server/routes.ts lines 13-21): no
authentication, returns the active alerts. -/
def getAlertsHandler (db : AlertsDb) (now : Timestamp) : AlertResponse :=
  .alertsJson 200 (ServerStorage.getActiveAlerts db now)

/-- The POST /api/alerts handler (src/server/routes.ts lines 23-42):
401 when `req.isAuthenticated()` is false; otherwise
`insertAlertSchema.parse(req.body)` (400 on a `ZodError`) and
`storage.createAlert({...validatedData, createdBy: req.user.id})`
answered with 201.  `session` is `req.user` when authenticated. -/
def postAlertsHandler (session : Option User) (body : AlertReqBody)
    (now : Timestamp) (db : AlertsDb) : AlertResponse × AlertsDb :=
  match session with
  | none => (.errorJson 401 "Authentication required", db)
  | some u =>
    match insertAlertSchemaParse body with
    | none => (.errorJson 400 "Invalid alert data", db)
    | some v =>
      let r := ServerStorage.createAlert v u.id now db
      (.alertJson 201 r.1, r.2)

/-- The PUT /api/alerts/:id handler (src/server/routes.ts lines 44-63):
401 when unauthenticated; otherwise `storage.updateAlert(alertId, req.body)`
with the raw request body, 404 when no row matched, 200 with the updated
alert otherwise.  No ownership check is made and the body is not
validated. -/
def putAlertHandler (session : Option User) (alertId : Nat)
    (body : AlertUpdate) (db : AlertsDb) : AlertResponse × AlertsDb :=
  match session with
  | none => (.errorJson 401 "Authentication required", db)
  | some _ =>
    let r := ServerStorage.updateAlert alertId body db
    match r.1 with
    | none => (.errorJson 404 "Alert not found", r.2)
    | some a => (.alertJson 200 a, r.2)

/-- The DELETE /api/alerts/:id handler (src/server/routes.ts lines 65-83):
401 when unauthenticated; otherwise `storage.deleteAlert(alertId)`,
204 on `true`, 404 on `false`.  No ownership check is made. -/
def deleteAlertHandler (session : Option User) (alertId : Nat)
    (db : AlertsDb) : AlertResponse × AlertsDb :=
  match session with
  | none => (.errorJson 401 "Authentication required", db)
  | some _ =>
    let r := ServerStorage.deleteAlert alertId db
    if r.1 then (.empty 204, r.2) else (.errorJson 404 "Alert not found", r.2)

end Routes

/-- A byte buffer (Node `Buffer`). -/
abbrev Bytes := List (Fin 256)

/-- The lower-case hex character of a value below 16
(`'0'` is code 48, `'a'` is code 97). -/
def hexDigit (n : Nat) : Char :=
  if n < 10 then Char.ofNat (48 + n) else Char.ofNat (87 + n)

/-- The two hex characters of one byte. -/
def hexEncodeByte (b : Fin 256) : List Char :=
  [hexDigit (b.val / 16), hexDigit (b.val % 16)]

/-- `buf.toString("hex")`. -/
def hexEncode (bs : Bytes) : String :=
  ⟨(bs.map hexEncodeByte).flatten⟩

/-- The value of a hex character, upper or lower case. -/
def hexVal (c : Char) : Option (Fin 16) :=
  if h : 48 ≤ c.toNat ∧ c.toNat ≤ 57 then some ⟨c.toNat - 48, by omega⟩
  else if h : 97 ≤ c.toNat ∧ c.toNat ≤ 102 then some ⟨c.toNat - 87, by omega⟩
  else if h : 65 ≤ c.toNat ∧ c.toNat ≤ 70 then some ⟨c.toNat - 55, by omega⟩
  else none

/-- `Buffer.from(s, "hex")` decodes hex pairs and stops at the first
invalid or incomplete pair. -/
def hexDecodeAux : List Char → Bytes
  | c1 :: c2 :: rest =>
    match hexVal c1, hexVal c2 with
    | some hi, some lo =>
      ⟨16 * hi.val + lo.val, by have := hi.isLt; have := lo.isLt; omega⟩ ::
        hexDecodeAux rest
    | _, _ => []
  | _ => []

/-- `Buffer.from(s, "hex")`. -/
def hexDecode (s : String) : Bytes := hexDecodeAux s.data

/-- Splitting accumulator for `splitDot`. -/
def splitDotAux : List Char → List Char → List String
  | [], acc => [⟨acc.reverse⟩]
  | c :: cs, acc =>
    if c = '.' then (⟨acc.reverse⟩ : String) :: splitDotAux cs []
    else splitDotAux cs (c :: acc)

/-- `stored.split(".")` (src/server/auth.ts line 22). -/
def splitDot (s : String) : List String := splitDotAux s.data []

/-- The comparison loop of `crypto.timingSafeEqual`: it accumulates the
byte differences over the whole buffer, never stopping early at the first
difference.  The first component is whether some position differed; the
second counts the byte comparisons performed, which is how the timing of
the loop is modeled. -/
def ctCompareRun (a b : Bytes) : Bool × Nat :=
  match a, b with
  | x :: xs, y :: ys =>
    let r := ctCompareRun xs ys
    (decide (x ≠ y) || r.1, r.2 + 1)
  | _, _ => (false, 0)

/-- `crypto.timingSafeEqual(a, b)`: throws (`none`) when the buffer lengths
differ, otherwise answers whether the buffers are equal, examining every
byte. -/
def timingSafeEqual (a b : Bytes) : Option Bool :=
  if a.length = b.length then some (!(ctCompareRun a b).1) else none

/-- `hashPassword` (src/server/auth.ts lines 12-16):
`scrypt(password, salt, 64).toString("hex") + "." + salt`.  The scrypt
primitive is an external library call, passed as a parameter; the random
salt is likewise a parameter of the callers. -/
def hashPassword (scrypt : String → String → Bytes)
    (password salt : String) : String :=
  hexEncode (scrypt password salt) ++ "." ++ salt

/-- `comparePasswords` (src/server/auth.ts lines 18-26): split the stored
string on `"."`, hex-decode the stored hash, recompute scrypt of the
supplied password with the stored salt, and compare with
`crypto.timingSafeEqual`.  `none` models the promise rejecting (missing
salt part, or a buffer length mismatch making `timingSafeEqual` throw). -/
def comparePasswords (scrypt : String → String → Bytes)
    (supplied stored : String) : Option Bool :=
  match splitDot stored with
  | hashedPassword :: salt :: _ =>
    timingSafeEqual (hexDecode hashedPassword) (scrypt supplied salt)
  | _ => none

/-- The persistent `users` table with its id counter. -/
structure UsersDb where
  users : List User
  nextId : Nat := 1
  deriving Repr, DecidableEq

namespace Auth

/-- `storage.getUserByUsername` (first matching row or null). -/
def getUserByUsername (username : String) (db : UsersDb) : Option User :=
  (db.users.filter (fun u => u.username == username)).head?

/-- `storage.createUser`: inserts the row (the `password` argument is
whatever string the caller supplies — the register handler passes the
hash). -/
def createUser (username password : String) (now : Timestamp)
    (db : UsersDb) : User × UsersDb :=
  let u : User := { id := db.nextId, username := username,
                    password := password, isAdmin := true, createdAt := now }
  (u, { users := db.users ++ [u], nextId := db.nextId + 1 })

/-- Outcome of the passport `LocalStrategy` verify callback:
`done(null, user)`, `done(null, false, {message})`, or `done(err)`. -/
inductive AuthOutcome where
  | success (u : User)
  | failure (message : String)
  | error
  deriving Repr, DecidableEq

/-- The `LocalStrategy` verify callback (src/server/auth.ts lines 56-72):
unknown username and wrong password both fail with the same generic
message. -/
def localStrategyVerify (scrypt : String → String → Bytes)
    (username password : String) (db : UsersDb) : AuthOutcome :=
  match getUserByUsername username db with
  | none => .failure "Nesprávné uživatelské jméno nebo heslo."
  | some user =>
    match comparePasswords scrypt password user.password with
    | none => .error
    | some true => .success user
    | some false => .failure "Nesprávné uživatelské jméno nebo heslo."

/-- The POST /api/login handler (src/server/auth.ts lines 120-141): on
`done(null, false, info)` it answers 400 with `info.message`; on success it
answers 200 with `{id, username}` only; `done(err)` goes to the Express
error handler (a generic 500). -/
def loginHandler (scrypt : String → String → Bytes)
    (username password : String) (db : UsersDb) : Nat × Json :=
  match localStrategyVerify scrypt username password db with
  | .success u =>
    (200, .obj [("message", .str "Přihlášení úspěšné"),
                ("user", .obj [("id", .num u.id),
                               ("username", .str u.username)])])
  | .failure m => (400, .obj [("message", .str m)])
  | .error => (500, .obj [("message", .str "Internal Server Error")])

/-- The POST /api/register handler (src/server/auth.ts lines 87-118):
400 when username or password is falsy (empty), 400 when the username is
already stored, otherwise hash the password, insert the user and answer
200 with `{id, username}` only.  The fresh random salt is a parameter. -/
def registerHandler (scrypt : String → String → Bytes)
    (username password salt : String) (now : Timestamp)
    (db : UsersDb) : (Nat × Json) × UsersDb :=
  if username = "" ∨ password = "" then
    ((400, .obj [("message", .str "Uživatelské jméno a heslo jsou povinné")]),
      db)
  else
    match getUserByUsername username db with
    | some _ =>
      ((400, .obj [("message", .str "Uživatelské jméno již existuje")]), db)
    | none =>
      let hashed := hashPassword scrypt password salt
      let r := createUser username hashed now db
      ((200, .obj [("message", .str "Registrace úspěšná"),
                   ("user", .obj [("id", .num r.1.id),
                                  ("username", .str r.1.username)])]), r.2)

/-- The GET /api/user handler (src/server/auth.ts lines 153-158):
`res.json(req.user)` — the whole stored user row — when authenticated,
401 otherwise. -/
def getUserHandler (session : Option User) : Nat × Json :=
  match session with
  | some u => (200, u.toJson)
  | none => (401, .obj [("message", .str "Nepřihlášen")])

end Auth

/-! Concrete fixtures used to evaluate the embedded handlers on explicit
inputs.  `toyScrypt` is a stand-in instantiation of the external scrypt
parameter (any function of its type is admissible there). -/

/-- A concrete instantiation of the scrypt parameter, used to evaluate the
auth layer on explicit inputs. -/
def toyScrypt : String → String → Bytes :=
  fun p s => List.replicate 4 ⟨(p.length + 2 * s.length) % 256, by omega⟩

/-- A stored user; the password field holds a `hash.salt` string. -/
def aliceUser : User :=
  { id := 1, username := "alice", password := "0d0d0d0d.ab",
    isAdmin := true, createdAt := 0 }

/-- A second authenticated user, not the owner of `potholeAlert`. -/
def bobUser : User :=
  { id := 2, username := "bob", password := "0d0d0d0d.ab",
    isAdmin := true, createdAt := 0 }

/-- A users table holding only `aliceUser`. -/
def usersOneDb : UsersDb := { users := [aliceUser], nextId := 2 }

/-- A live alert created by user 1. -/
def potholeAlert : Alert :=
  { id := 1, title := "Pothole", description := "Deep pothole",
    category := "road", severity := "medium", xPosition := 30,
    yPosition := 40, createdBy := 1, createdAt := 5 }

/-- An alert whose `expiresAt` lies in the past of query time 100. -/
def expiredAlert : Alert :=
  { id := 2, title := "Old closure", description := "Cleared",
    category := "road", severity := "low", xPosition := 1, yPosition := 2,
    createdBy := 1, createdAt := 3, expiresAt := some 50 }

/-- An alerts table holding only `potholeAlert`. -/
def oneAlertDb : AlertsDb := { alerts := [potholeAlert], nextId := 2 }

/-- An alerts table with one live and one expired alert. -/
def liveAndExpiredDb : AlertsDb :=
  { alerts := [potholeAlert, expiredAlert], nextId := 3 }

/-- An empty alerts table. -/
def emptyAlertsDb : AlertsDb := { alerts := [], nextId := 1 }

/-- A partial update that only renames the title. -/
def titleUpd : AlertUpdate := { title := some "hacked" }

/-- A partial update touching an out-of-range position, the owner column
and the soft-delete flag — fields PUT /api/alerts/:id forwards verbatim. -/
def wildUpd : AlertUpdate :=
  { xPosition := some 999, createdBy := some 42, isActive := some false }

/-- Creation data with a 60-minute expiration, for the part_001 store. -/
def pothole60 : InsertAlertP1 :=
  { title := "Pothole", description := "Deep pothole", category := "road",
    severity := "medium", xPosition := 30, yPosition := 40,
    expirationMinutes := some 60 }

/-- A POST /api/alerts body whose `xPosition` is 150, outside [0, 100]. -/
def outOfRangeBody : AlertReqBody :=
  { title := "Pothole", description := "Deep pothole", category := "road",
    severity := "medium", xPosition := 150, yPosition := 40 }

/-- The row the server stores for `outOfRangeBody` (created by user 1 at
time 5 into the empty table). -/
def outOfRangeStored : Alert :=
  { id := 1, title := "Pothole", description := "Deep pothole",
    category := "road", severity := "medium", xPosition := 150,
    yPosition := 40, createdBy := 1, createdAt := 5, expiresAt := none,
    isActive := true }

/-! Helper lemmas shared by the claim theorems. -/

theorem expiryKeeps_iff (now : Timestamp) (e : Option Timestamp) :
    ServerStorage.expiryKeeps now e = true ↔
      e = none ∨ ∃ t, e = some t ∧ now ≤ t := by
  cases e with
  | none => simp [ServerStorage.expiryKeeps]
  | some t => simp [ServerStorage.expiryKeeps]

theorem mem_getActiveAlerts (db : AlertsDb) (now : Timestamp) (a : Alert) :
    a ∈ ServerStorage.getActiveAlerts db now ↔
      a ∈ db.alerts ∧ a.isActive = true ∧
        (a.expiresAt = none ∨ ∃ t, a.expiresAt = some t ∧ now ≤ t) := by
  rw [ServerStorage.getActiveAlerts, List.mem_insertionSort, List.mem_filter,
    Bool.and_eq_true, expiryKeeps_iff]

theorem updateMap_noop (id : Nat) (u : AlertUpdate) (l : List Alert)
    (h : ∀ a ∈ l, a.id ≠ id) :
    l.map (fun a => if a.id = id then applyUpdates u a else a) = l := by
  induction l with
  | nil => rfl
  | cons a t ih =>
    rw [List.map_cons, if_neg (h a (List.mem_cons_self a t)),
      ih (fun b hb => h b (List.mem_cons_of_mem a hb))]

theorem softDelete_map_idem (id : Nat) (l : List Alert) :
    ((l.map (fun a => if a.id = id then { a with isActive := false } else a)).map
        (fun a => if a.id = id then { a with isActive := false } else a)) =
      l.map (fun a => if a.id = id then { a with isActive := false } else a) := by
  induction l with
  | nil => rfl
  | cons a t ih =>
    by_cases h : a.id = id <;> simp [h, ih]

/-! The claim theorems. -/

/-- C4: `getActiveAlerts()` returns exactly the stored alerts with
`isActive = true` and (`expiresAt` null or `expiresAt >= now`), ordered by
`createdAt` descending, and never an alert whose `expiresAt` is in the
past. -/
theorem getActiveAlerts_spec (db : AlertsDb) (now : Timestamp) :
    (∀ a : Alert,
        a ∈ ServerStorage.getActiveAlerts db now ↔
          a ∈ db.alerts ∧ a.isActive = true ∧
            (a.expiresAt = none ∨ ∃ t, a.expiresAt = some t ∧ now ≤ t)) ∧
    (ServerStorage.getActiveAlerts db now).Sorted
      (fun x y => y.createdAt ≤ x.createdAt) ∧
    (∀ a ∈ ServerStorage.getActiveAlerts db now,
        ∀ t, a.expiresAt = some t → ¬ t < now) := by
  refine ⟨mem_getActiveAlerts db now, List.sorted_insertionSort _ _, ?_⟩
  intro a ha t ht hlt
  rcases ((mem_getActiveAlerts db now a).mp ha).2.2 with h | ⟨t', h, hle⟩
  · rw [ht] at h; exact Option.noConfusion h
  · rw [ht] at h
    have heq : t = t' := Option.some.inj h
    subst heq
    exact absurd hlt (not_lt.mpr hle)

/-- Witness for C4 at a concrete store and query time 100: the live alert
is returned, the alert expired at 50 is not. -/
theorem getActiveAlerts_spec_witness :
    potholeAlert ∈ ServerStorage.getActiveAlerts liveAndExpiredDb 100 ∧
    expiredAlert ∉ ServerStorage.getActiveAlerts liveAndExpiredDb 100 := by
  constructor
  · exact ((getActiveAlerts_spec liveAndExpiredDb 100).1 potholeAlert).mpr
      ⟨by decide, by decide, Or.inl (by decide)⟩
  · intro hmem
    exact (getActiveAlerts_spec liveAndExpiredDb 100).2.2 expiredAlert hmem
      50 (by decide) (by decide)

/-- C10: `updateAlert(id, u)` overwrites, in every row matching `id`,
exactly the columns named in `u` with the supplied values verbatim — no
validation, range check or field allow-list — and leaves every other column
and every other row unchanged; with no matching row it returns null and the
store is unchanged. -/
theorem updateAlert_stores_exactly (id : Nat) (u : AlertUpdate)
    (db : AlertsDb) :
    ((ServerStorage.updateAlert id u db).2.alerts.length =
      db.alerts.length) ∧
    (∀ (i : Nat) (h1 : i < db.alerts.length)
        (h2 : i < (ServerStorage.updateAlert id u db).2.alerts.length),
        ((db.alerts[i]).id ≠ id →
            (ServerStorage.updateAlert id u db).2.alerts[i] =
              db.alerts[i]) ∧
        ((db.alerts[i]).id = id →
            (ServerStorage.updateAlert id u db).2.alerts[i] =
              applyUpdates u db.alerts[i])) ∧
    (∀ a : Alert,
        (applyUpdates u a).id = u.id.getD a.id ∧
        (applyUpdates u a).title = u.title.getD a.title ∧
        (applyUpdates u a).description = u.description.getD a.description ∧
        (applyUpdates u a).alternativeRoute =
          u.alternativeRoute.getD a.alternativeRoute ∧
        (applyUpdates u a).alternativeRoutes =
          u.alternativeRoutes.getD a.alternativeRoutes ∧
        (applyUpdates u a).category = u.category.getD a.category ∧
        (applyUpdates u a).severity = u.severity.getD a.severity ∧
        (applyUpdates u a).xPosition = u.xPosition.getD a.xPosition ∧
        (applyUpdates u a).yPosition = u.yPosition.getD a.yPosition ∧
        (applyUpdates u a).createdBy = u.createdBy.getD a.createdBy ∧
        (applyUpdates u a).createdAt = u.createdAt.getD a.createdAt ∧
        (applyUpdates u a).expiresAt = u.expiresAt.getD a.expiresAt ∧
        (applyUpdates u a).isActive = u.isActive.getD a.isActive) ∧
    ((∀ a ∈ db.alerts, a.id ≠ id) →
        (ServerStorage.updateAlert id u db).1 = none ∧
        (ServerStorage.updateAlert id u db).2 = db) := by
  refine ⟨by simp [ServerStorage.updateAlert], ?_, ?_, ?_⟩
  · intro i h1 h2
    constructor
    · intro hid
      show (db.alerts.map
        (fun a => if a.id = id then applyUpdates u a else a))[i] = _
      rw [List.getElem_map]
      exact if_neg hid
    · intro hid
      show (db.alerts.map
        (fun a => if a.id = id then applyUpdates u a else a))[i] = _
      rw [List.getElem_map]
      exact if_pos hid
  · intro a
    exact ⟨rfl, rfl, rfl, rfl, rfl, rfl, rfl, rfl, rfl, rfl, rfl, rfl, rfl⟩
  · intro h
    have hfil : db.alerts.filter (fun a => a.id == id) = [] :=
      List.filter_eq_nil_iff.mpr (by simpa using h)
    constructor
    · show ((db.alerts.filter (fun a => a.id == id)).map
        (applyUpdates u)).head? = none
      rw [hfil]; rfl
    · show ({ db with alerts := db.alerts.map (fun a => if a.id = id then applyUpdates u a else a) } : AlertsDb) = db
      rw [updateMap_noop id u db.alerts h]

/-- Witness for C10: the update `wildUpd` sets an out-of-range position,
the owner column and the soft-delete flag verbatim, and leaves the title
alone. -/
theorem updateAlert_stores_exactly_witness :
    (applyUpdates wildUpd potholeAlert).xPosition = 999 ∧
    (applyUpdates wildUpd potholeAlert).createdBy = 42 ∧
    (applyUpdates wildUpd potholeAlert).isActive = false ∧
    (applyUpdates wildUpd potholeAlert).title = potholeAlert.title := by
  obtain ⟨f1, f2, f3, f4, f5, f6, f7, f8, f9, f10, f11, f12, f13⟩ :=
    (updateAlert_stores_exactly 1 wildUpd oneAlertDb).2.2.1 potholeAlert
  exact ⟨f8.trans rfl, f10.trans rfl, f13.trans rfl, f2.trans rfl⟩

/-- C1 (behavior of the code at the failing input): an authenticated
requester who is not the alert's owner gets 204/200 — not 403 — from
DELETE and PUT /api/alerts/:id, and the stored record is mutated. -/
theorem nonOwner_write_succeeds :
    bobUser.id ≠ potholeAlert.createdBy ∧
    Routes.deleteAlertHandler (some bobUser) 1 oneAlertDb =
      (AlertResponse.empty 204,
        { alerts := [{ potholeAlert with isActive := false }], nextId := 2 }) ∧
    Routes.putAlertHandler (some bobUser) 1 titleUpd oneAlertDb =
      (AlertResponse.alertJson 200 { potholeAlert with title := "hacked" },
        { alerts := [{ potholeAlert with title := "hacked" }], nextId := 2 }) := by
  refine ⟨by decide, by decide, by decide⟩

/-- C2 (behavior of the code at the failing input): GET /api/user answers
200 with the whole stored user row — the `password` hash field included. -/
theorem apiUser_response_contains_password_hash :
    (Auth.getUserHandler (some aliceUser)).1 = 200 ∧
    ("password", Json.str "0d0d0d0d.ab") ∈
      ((Auth.getUserHandler (some aliceUser)).2).fields := by
  refine ⟨rfl, ?_⟩
  show ("password", Json.str "0d0d0d0d.ab") ∈
    [("id", Json.num 1), ("username", Json.str "alice"),
     ("password", Json.str "0d0d0d0d.ab"), ("isAdmin", Json.bool true),
     ("createdAt", Json.num 0)]
  exact List.Mem.tail _ (List.Mem.tail _ (List.Mem.head _))

/-- C6 (behavior of the code at the failing input): a POST /api/alerts body
with `xPosition = 150` passes the effective `insertAlertSchema` (the
duplicate keys overrode the range checks) and the alert is created with
status 201. -/
theorem outOfRange_position_reaches_storage :
    insertAlertSchemaParse outOfRangeBody =
      some { title := "Pothole", description := "Deep pothole",
             category := "road", severity := "medium", xPosition := 150,
             yPosition := 40 } ∧
    Routes.postAlertsHandler (some aliceUser) outOfRangeBody 5 emptyAlertsDb =
      (AlertResponse.alertJson 201 outOfRangeStored,
        { alerts := [outOfRangeStored], nextId := 2 }) := by
  refine ⟨by decide, by decide⟩

/-- C3 counterexample: on a store whose alert 1 was already soft-deleted
once, the second `deleteAlert(1)` does not return `false` — the row still
matches by `id`. -/
theorem deleteAlert_second_call_not_false :
    ¬((ServerStorage.deleteAlert 1
        ((ServerStorage.deleteAlert 1 oneAlertDb).2)).1 = false) := by
  decide

/-- C3 amended: after a successful `deleteAlert(id)`, a second
`deleteAlert(id)` returns `true` (a row with that `id` still exists — the
soft delete retains it), leaves the store exactly as the first call left
it, and the record remains stored with `isActive = false`. -/
theorem deleteAlert_second_call_true (db : AlertsDb) (id : Nat)
    (h : (ServerStorage.deleteAlert id db).1 = true) :
    (ServerStorage.deleteAlert id
        ((ServerStorage.deleteAlert id db).2)).1 = true ∧
    (ServerStorage.deleteAlert id ((ServerStorage.deleteAlert id db).2)).2 =
      (ServerStorage.deleteAlert id db).2 ∧
    ∃ a ∈ ((ServerStorage.deleteAlert id db).2).alerts,
      a.id = id ∧ a.isActive = false := by
  have hmap := softDelete_map_idem id db.alerts
  simp only [ServerStorage.deleteAlert, decide_eq_true_eq] at h ⊢
  refine ⟨?_, ?_, ?_⟩
  · rw [hmap]; exact h
  · rw [hmap]
  obtain ⟨a, hafil⟩ := List.exists_mem_of_ne_nil _ (List.length_pos.mp h)
  have hmem := List.mem_filter.mp hafil
  have haid : a.id = id := by simpa using hmem.2
  obtain ⟨b, hb, hgb⟩ := List.mem_map.mp hmem.1
  refine ⟨a, hmem.1, haid, ?_⟩
  by_cases hbid : b.id = id
  · rw [← hgb]; simp [hbid]
  · rw [← hgb] at haid
    rw [if_neg hbid] at hgb haid
    exact absurd haid hbid

/-- Witness for the amended C3 at a concrete store. -/
theorem deleteAlert_second_call_true_witness :
    (ServerStorage.deleteAlert 1
        ((ServerStorage.deleteAlert 1 oneAlertDb).2)).1 = true ∧
    (ServerStorage.deleteAlert 1 ((ServerStorage.deleteAlert 1 oneAlertDb).2)).2 =
      (ServerStorage.deleteAlert 1 oneAlertDb).2 ∧
    ∃ a ∈ ((ServerStorage.deleteAlert 1 oneAlertDb).2).alerts,
      a.id = 1 ∧ a.isActive = false :=
  deleteAlert_second_call_true oneAlertDb 1 (by decide)

/-- C5: the part_001 `createAlert` computes `expiresAt` from the supplied
relative duration at the creation instant — 60 minutes yields exactly
`createdAt + 60 * 60000` ms, a duration of 0 or an absent duration yields
null — and the alert is persisted with `isActive = true`. -/
theorem createAlert_part001_expiry (d : InsertAlertP1) (createdBy : Nat)
    (now : Timestamp) (db : AlertsDb) :
    ((Part001.createAlert d createdBy now db).1.isActive = true) ∧
    ((Part001.createAlert d createdBy now db).1.createdAt = now) ∧
    ((Part001.createAlert d createdBy now db).2.alerts =
      db.alerts ++ [(Part001.createAlert d createdBy now db).1]) ∧
    (∀ m : Int, d.expirationMinutes = some m → 0 < m →
        (Part001.createAlert d createdBy now db).1.expiresAt =
          some (now + m * 60000)) ∧
    (d.expirationMinutes = some 60 →
        (Part001.createAlert d createdBy now db).1.expiresAt =
          some (now + 60 * 60000)) ∧
    ((d.expirationMinutes = none ∨ d.expirationMinutes = some 0) →
        (Part001.createAlert d createdBy now db).1.expiresAt = none) := by
  have hgen : ∀ m : Int, d.expirationMinutes = some m → 0 < m →
      (Part001.createAlert d createdBy now db).1.expiresAt =
        some (now + m * 60000) := by
    intro m hm hpos
    simp [Part001.createAlert, hm, hpos]
  refine ⟨rfl, rfl, rfl, hgen, fun hm => hgen 60 hm (by norm_num), ?_⟩
  rintro (hm | hm) <;> simp [Part001.createAlert, hm]

/-- Witness for C5: a 60-minute expiration at creation time 1000 stores
`expiresAt = 3601000` and an active alert. -/
theorem createAlert_part001_expiry_witness :
    (Part001.createAlert pothole60 1 1000 emptyAlertsDb).1.expiresAt =
      some 3601000 ∧
    (Part001.createAlert pothole60 1 1000 emptyAlertsDb).1.isActive = true := by
  have h := createAlert_part001_expiry pothole60 1 1000 emptyAlertsDb
  refine ⟨?_, h.1⟩
  have h60 := h.2.2.2.2.1 rfl
  rw [h60]
  norm_num

theorem ctCompareRun_snd (a b : Bytes) :
    (ctCompareRun a b).2 = min a.length b.length := by
  induction a generalizing b with
  | nil => cases b <;> simp [ctCompareRun]
  | cons x xs ih =>
    cases b with
    | nil => simp [ctCompareRun]
    | cons y ys =>
      simp only [ctCompareRun, ih ys, List.length_cons]
      omega

theorem ctCompareRun_eq_iff (a b : Bytes) (h : a.length = b.length) :
    (ctCompareRun a b).1 = false ↔ a = b := by
  induction a generalizing b with
  | nil =>
    cases b with
    | nil => simp [ctCompareRun]
    | cons y ys => simp at h
  | cons x xs ih =>
    cases b with
    | nil => simp at h
    | cons y ys =>
      have hlen : xs.length = ys.length := by simpa using h
      simp only [ctCompareRun, Bool.or_eq_false_iff, List.cons.injEq,
        decide_eq_false_iff_not, not_not]
      rw [ih ys hlen]

theorem timingSafeEqual_eq_decide (a b : Bytes) (h : a.length = b.length) :
    timingSafeEqual a b = some (decide (a = b)) := by
  rw [timingSafeEqual, if_pos h]
  congr 1
  cases hfst : (ctCompareRun a b).1 with
  | false =>
    have hab := (ctCompareRun_eq_iff a b h).mp hfst
    simp [hab]
  | true =>
    have hab : a ≠ b := fun habs => by
      have hc := (ctCompareRun_eq_iff a b h).mpr habs
      rw [hfst] at hc
      exact Bool.noConfusion hc
    simp [hab]

/-- C9: password verification recomputes scrypt of the supplied password
with the stored salt and compares the derived buffer to the hex-decoded
stored hash; when `comparePasswords` returns a verdict, the verdict is
exactly buffer equality; the number of byte comparisons the loop performs
depends only on the buffer lengths, never on where the buffers differ; and
mismatched lengths make `timingSafeEqual` throw rather than answer. -/
theorem comparePasswords_constant_time :
    (∀ (scrypt : String → String → Bytes) (supplied stored : String)
        (b : Bool) (p0 p1 : String) (rest : List String),
        splitDot stored = p0 :: p1 :: rest →
        comparePasswords scrypt supplied stored = some b →
        (b = true ↔ hexDecode p0 = scrypt supplied p1)) ∧
    (∀ a1 b1 a2 b2 : Bytes, a1.length = a2.length → b1.length = b2.length →
        (ctCompareRun a1 b1).2 = (ctCompareRun a2 b2).2) ∧
    (∀ a b : Bytes, a.length ≠ b.length → timingSafeEqual a b = none) := by
  refine ⟨?_, ?_, ?_⟩
  · intro scrypt supplied stored b p0 p1 rest hsplit hcmp
    have hcmp2 : timingSafeEqual (hexDecode p0) (scrypt supplied p1) =
        some b := by
      rw [comparePasswords, hsplit] at hcmp
      exact hcmp
    by_cases hlen : (hexDecode p0).length = (scrypt supplied p1).length
    · rw [timingSafeEqual_eq_decide _ _ hlen] at hcmp2
      have hb := Option.some.inj hcmp2
      rw [← hb, decide_eq_true_eq]
    · rw [timingSafeEqual, if_neg hlen] at hcmp2
      exact Option.noConfusion hcmp2
  · intro a1 b1 a2 b2 h1 h2
    rw [ctCompareRun_snd, ctCompareRun_snd, h1, h2]
  · intro a b h
    rw [timingSafeEqual, if_neg h]

/-- Witness for C9 at concrete buffers and a concrete stored credential:
the verdict equals buffer equality, and the comparison count agrees across
same-length buffers of different contents. -/
theorem comparePasswords_constant_time_witness :
    (false = true ↔ hexDecode "0d0d0d0d" = toyScrypt "wrong" "ab") ∧
    (ctCompareRun [(1 : Fin 256)] [(2 : Fin 256)]).2 =
      (ctCompareRun [(3 : Fin 256)] [(3 : Fin 256)]).2 := by
  constructor
  · exact comparePasswords_constant_time.1 toyScrypt "wrong" "0d0d0d0d.ab"
      false "0d0d0d0d" "ab" [] (by decide) (by decide)
  · exact comparePasswords_constant_time.2.1 [(1 : Fin 256)] [(2 : Fin 256)]
      [(3 : Fin 256)] [(3 : Fin 256)] rfl rfl

/-- C7: a login attempt with an unknown username and one with a known
username but a wrong password produce identical client-visible responses —
status 400 and the same generic message, disclosing nothing about which
field was wrong. -/
theorem login_failure_uniform (scrypt : String → String → Bytes)
    (db : UsersDb) (u1 p1 u2 p2 : String) (usr : User)
    (h1 : Auth.getUserByUsername u1 db = none)
    (h2 : Auth.getUserByUsername u2 db = some usr)
    (h3 : comparePasswords scrypt p2 usr.password = some false) :
    Auth.loginHandler scrypt u1 p1 db = Auth.loginHandler scrypt u2 p2 db ∧
    Auth.loginHandler scrypt u1 p1 db =
      (400, Json.obj
        [("message", Json.str "Nesprávné uživatelské jméno nebo heslo.")]) := by
  have e1 : Auth.loginHandler scrypt u1 p1 db =
      (400, Json.obj
        [("message", Json.str "Nesprávné uživatelské jméno nebo heslo.")]) := by
    rw [Auth.loginHandler, Auth.localStrategyVerify, h1]
  have hv : Auth.localStrategyVerify scrypt u2 p2 db =
      match comparePasswords scrypt p2 usr.password with
      | none => Auth.AuthOutcome.error
      | some true => Auth.AuthOutcome.success usr
      | some false =>
        Auth.AuthOutcome.failure "Nesprávné uživatelské jméno nebo heslo." := by
    rw [Auth.localStrategyVerify, h2]
  have e2 : Auth.loginHandler scrypt u2 p2 db =
      (400, Json.obj
        [("message", Json.str "Nesprávné uživatelské jméno nebo heslo.")]) := by
    rw [Auth.loginHandler, hv, h3]
  exact ⟨e1.trans e2.symm, e1⟩

/-- Witness for C7: on a store holding only alice, the response to a
login as unknown "mallory" equals the response to a login as "alice" with
a wrong password. -/
theorem login_failure_uniform_witness :
    Auth.loginHandler toyScrypt "mallory" "x" usersOneDb =
      Auth.loginHandler toyScrypt "alice" "wrong" usersOneDb ∧
    Auth.loginHandler toyScrypt "mallory" "x" usersOneDb =
      (400, Json.obj
        [("message", Json.str "Nesprávné uživatelské jméno nebo heslo.")]) :=
  login_failure_uniform toyScrypt usersOneDb "mallory" "x" "alice" "wrong"
    aliceUser (by decide) (by decide) (by decide)

theorem getUserByUsername_none_iff (username : String) (db : UsersDb) :
    Auth.getUserByUsername username db = none ↔
      ∀ u ∈ db.users, u.username ≠ username := by
  rw [Auth.getUserByUsername, List.head?_eq_none_iff, List.filter_eq_nil_iff]
  simp

/-- C8: registering an already-stored username answers 400 (a
Conflict-class error, not a 500) and stores no new user; registering a
fresh username answers 200, appends exactly one user whose password column
holds the salted hash `hex(scrypt(password, salt)) ++ "." ++ salt` — never
the raw password — and the response body carries no password key. -/
theorem register_conflict_and_hash (scrypt : String → String → Bytes)
    (username password salt : String) (now : Timestamp) (db : UsersDb)
    (hu : username ≠ "") (hp : password ≠ "") :
    ((∃ u ∈ db.users, u.username = username) →
        (Auth.registerHandler scrypt username password salt now db).1.1 =
          400 ∧
        (Auth.registerHandler scrypt username password salt now db).2 = db) ∧
    ((∀ u ∈ db.users, u.username ≠ username) →
        (Auth.registerHandler scrypt username password salt now db).1.1 =
          200 ∧
        (∃ nu : User,
          (Auth.registerHandler scrypt username password salt now db).2.users =
            db.users ++ [nu] ∧
          nu.username = username ∧
          nu.password = hashPassword scrypt password salt ∧
          ('.' ∉ password.data → nu.password ≠ password)) ∧
        "password" ∉
          ((Auth.registerHandler scrypt username password salt now
              db).1.2).fields.map Prod.fst) := by
  have hcond : ¬(username = "" ∨ password = "") := by
    rintro (h | h)
    · exact hu h
    · exact hp h
  constructor
  · rintro ⟨u0, hu0, huname⟩
    cases hget : Auth.getUserByUsername username db with
    | none =>
      exact absurd ((getUserByUsername_none_iff username db).mp hget u0 hu0)
        (by simp [huname])
    | some w =>
      refine ⟨?_, ?_⟩ <;> rw [Auth.registerHandler, if_neg hcond, hget]
  · intro hfresh
    have hget : Auth.getUserByUsername username db = none :=
      (getUserByUsername_none_iff username db).mpr hfresh
    refine ⟨?_, ?_, ?_⟩
    · rw [Auth.registerHandler, if_neg hcond, hget]
    · refine ⟨{ id := db.nextId, username := username, password := hashPassword scrypt password salt, isAdmin := true, createdAt := now }, ?_, rfl, rfl, ?_⟩
      · rw [Auth.registerHandler, if_neg hcond, hget]
        rfl
      · intro hdot heq
        apply hdot
        rw [← heq]
        show ('.') ∈ (hexEncode (scrypt password salt) ++ "." ++ salt).data
        simp [String.data_append]
    · rw [Auth.registerHandler, if_neg hcond, hget]
      show ("password" : String) ∉ ["message", "user"]
      decide

/-- Witness for C8: on the store holding alice, re-registering "alice" is
refused with 400, while registering "bob" succeeds with 200. -/
theorem register_conflict_and_hash_witness :
    (Auth.registerHandler toyScrypt "alice" "pw" "ab" 0 usersOneDb).1.1 =
      400 ∧
    (Auth.registerHandler toyScrypt "bob" "pw" "ab" 0 usersOneDb).1.1 =
      200 := by
  constructor
  · exact ((register_conflict_and_hash toyScrypt "alice" "pw" "ab" 0
      usersOneDb (by decide) (by decide)).1 ⟨aliceUser, by decide, rfl⟩).1
  · exact ((register_conflict_and_hash toyScrypt "bob" "pw" "ab" 0
      usersOneDb (by decide) (by decide)).2 (by decide)).1
